import Mathlib

/-!
Verification of the TD-learning base module of the coax reinforcement-learning
library (`coax/td_learning/_base.py`) against its natural-language
specification.

The development has two layers.

The first layer is a computable shallow embedding of the engine state machine
(`BaseTDLearning`): pytrees of float values (which may be NaN or infinite),
the optimizer adapter, `update`, `update_from_grads`, `grads_and_metrics`,
the `optimizer` property setter, and the constructors of the V- and Q-variants
with their isinstance-style type checks.

The second layer is an analytic embedding, over real numbers, of the loss /
gradient / TD-error closures defined inside `BaseTDLearningV.__init__` and
`BaseTDLearningQ.__init__`; `jax.grad` with respect to a vector argument is
embedded as the vector of one-dimensional derivatives (`Mathlib.deriv`) in
each coordinate.
-/

/-! ## Float values

Leaf entries of jax arrays are floating-point numbers.  We model a float as
either a finite value (a rational), a NaN, or a signed infinity; this is
enough to express the NaN / non-finiteness distinctions the module makes
(`jnp.isnan` in `BaseTDLearning.update`). -/

/-- A floating-point scalar: finite (modeled exactly; an integer payload
suffices, since no claim about this layer involves fractional leaf values),
NaN, or a signed infinity. -/
inductive FVal where
  | fin (v : ℤ)
  | nan
  | inf
  | ninf
deriving DecidableEq, Repr

/-- Embedding of `jnp.isnan` on a scalar. -/
def FVal.isNaN : FVal → Bool
  | .nan => true
  | _ => false

/-- Embedding of `jnp.isfinite` on a scalar (true exactly on finite values). -/
def FVal.isFinite : FVal → Bool
  | .fin _ => true
  | _ => false

/-- IEEE-style addition on modeled floats (used by `optax.apply_updates`,
which adds updates to parameters leafwise). -/
def FVal.add : FVal → FVal → FVal
  | .nan, _ => .nan
  | _, .nan => .nan
  | .inf, .ninf => .nan
  | .ninf, .inf => .nan
  | .inf, _ => .inf
  | _, .inf => .inf
  | .ninf, _ => .ninf
  | _, .ninf => .ninf
  | .fin a, .fin b => .fin (a + b)

/-! ## Pytrees

A jax pytree is a nested structure of containers whose leaves are arrays.  A
leaf holds a flat array of floats.  A container is encoded as a list of
key/subtree entries written as a cons chain: `node k c r` is the container
whose first entry is `(k, c)` and whose remaining entries are `r`; `nil` is
the empty container.  (Unkeyed containers such as tuples are encoded with
positional keys.) -/

/-- A jax pytree with float-array leaves. -/
inductive PyTree where
  | leaf (xs : List FVal)
  | nil
  | node (key : String) (child rest : PyTree)
deriving DecidableEq, Repr

/-- A pytree structure, as produced by `jax.tree_structure`: the shape of the
tree with the leaf contents forgotten. -/
inductive TreeDef where
  | leafD
  | nilD
  | nodeD (key : String) (child rest : TreeDef)
deriving DecidableEq, Repr

/-- Embedding of `jax.tree_structure`. -/
def PyTree.struct : PyTree → TreeDef
  | .leaf _ => .leafD
  | .nil => .nilD
  | .node k c r => .nodeD k c.struct r.struct

/-- Embedding of `any(jnp.any(jnp.isnan(g)) for g in jax.tree_leaves(grads))`
from `BaseTDLearning.update`. -/
def PyTree.hasNaN : PyTree → Bool
  | .leaf xs => xs.any FVal.isNaN
  | .nil => false
  | .node _ c r => c.hasNaN || r.hasNaN

/-- Non-finiteness of some leaf entry (NaN or infinite).  This is the
predicate used by the specification when it speaks of "any non-finite value
in computed gradients"; the code itself only tests `jnp.isnan`. -/
def PyTree.hasNonFinite : PyTree → Bool
  | .leaf xs => xs.any (fun x => !x.isFinite)
  | .nil => false
  | .node _ c r => c.hasNonFinite || r.hasNonFinite

/-- Embedding of `optax.apply_updates params updates`: leafwise addition of
an update tree to a parameter tree.  The two trees have the same structure in
every modeled execution; on mismatching shapes (where the real library
raises) the function is left total by returning the first argument. -/
def applyUpdates : PyTree → PyTree → PyTree
  | .leaf xs, .leaf ys => .leaf (List.zipWith FVal.add xs ys)
  | .node k c r, .node _ c2 r2 => .node k (applyUpdates c c2) (applyUpdates r r2)
  | t, _ => t

/-! ## Errors

The Python exceptions raised by this module. -/

/-- Exceptions raised by the module: `TypeError` (constructor argument
checks), `RuntimeError` carrying the offending gradient tree (NaN guard in
`update`), `AttributeError` (optimizer setter), and `AssertionError`
(regularizer shape check inside the loss closures). -/
inductive Err where
  | typeError (msg : String)
  | runtimeError (grads : PyTree)
  | attributeError (msg : String)
  | assertionError
deriving DecidableEq, Repr

/-! ## Optimizer adapter

An optax gradient transformation: `init(params) -> state` and
`update(grads, state, params=None) -> (updates, new_state)`.  The optional
`params` argument is modeled as an `Option PyTree`. -/

/-- An optax-style optimizer: `init` builds the optimizer state from the
parameters, `update` turns gradients (plus state and optionally the current
parameters) into parameter updates and a new state. -/
structure Optimizer where
  init : PyTree → PyTree
  update : PyTree → PyTree → Option PyTree → PyTree × PyTree

/-- Embedding of the base-class closure `apply_grads_func` defined in
`BaseTDLearning.__init__`: it calls `opt.update(grads, opt_state, params)`
(passing the current parameters) and then applies the updates. -/
def apply_grads_func (opt : Optimizer) (opt_state params grads : PyTree) :
    PyTree × PyTree :=
  let u := opt.update grads opt_state (some params)
  (u.2, applyUpdates params u.1)

/-- Embedding of the overriding closure `apply_grads_func` defined in
`BaseTDLearningQ.__init__`: it calls `opt.update(grads, opt_state)` without
passing the current parameters, then applies the updates. -/
def apply_grads_func_q (opt : Optimizer) (opt_state params grads : PyTree) :
    PyTree × PyTree :=
  let u := opt.update grads opt_state none
  (u.2, applyUpdates params u.1)

/-! ## The engine state machine

`BaseTDLearning` holds the online function approximator (its parameters,
function state and rng), the optimizer and its state, and the jitted
closures.  The subclass-provided pieces (`target_params`,
`target_function_state`, `_grads_and_metrics_func`, `_apply_grads_func`) are
fields of the state, so that the base-class methods can be stated once for
all variants.  The transition-batch type is an opaque type parameter `B`,
and the metrics mapping is a list of key/score pairs. -/

/-- State of a `BaseTDLearning` instance.  `params`, `functionState` and
`rng` belong to the online function approximator `self._f`; `targetParams`
and `targetFunctionState` model the subclass properties of the same names;
`gmFunc` models the jitted `self._grads_and_metrics_func` and
`applyGradsFunc` the jitted `self._apply_grads_func`. -/
structure Engine (B : Type) where
  params : PyTree
  functionState : PyTree
  rng : ℕ
  optimizer : Optimizer
  optimizerState : PyTree
  targetParams : PyTree
  targetFunctionState : PyTree
  applyGradsFunc : Optimizer → PyTree → PyTree → PyTree → PyTree × PyTree
  gmFunc : PyTree → PyTree → PyTree → PyTree → ℕ → B →
    PyTree × PyTree × List (String × FVal)

/-- Embedding of `BaseTDLearning.grads_and_metrics`: calls the jitted closure
on the current online parameters, target parameters, function state, target
function state and rng. -/
def Engine.grads_and_metrics {B : Type} (e : Engine B) (tb : B) :
    PyTree × PyTree × List (String × FVal) :=
  e.gmFunc e.params e.targetParams e.functionState e.targetFunctionState e.rng tb

/-- Embedding of `BaseTDLearning.update_from_grads`: stores the new function
state, then runs the apply-grads closure to obtain the new optimizer state
and new parameters. -/
def Engine.update_from_grads {B : Type} (e : Engine B) (grads fstate : PyTree) :
    Engine B :=
  let r := e.applyGradsFunc e.optimizer e.optimizerState e.params grads
  { e with functionState := fstate, optimizerState := r.1, params := r.2 }

/-- Embedding of `BaseTDLearning.update`: computes gradients and metrics,
raises `RuntimeError` (carrying the gradient tree) if any gradient leaf
contains a NaN, and otherwise applies the gradients and returns the metrics.
The returned engine is the post-call state: unchanged when the error is
raised, since the raise happens before any mutation. -/
def Engine.update {B : Type} (e : Engine B) (tb : B) :
    Engine B × Except Err (List (String × FVal)) :=
  let r := e.grads_and_metrics tb
  if r.1.hasNaN then (e, .error (.runtimeError r.1))
  else (e.update_from_grads r.1 r.2.1, .ok r.2.2)

/-- Embedding of the `optimizer` property setter: initializes the candidate
optimizer on the current online parameters, compares tree structures with the
current optimizer state, raises `AttributeError` on mismatch, and otherwise
replaces the optimizer (leaving the optimizer state untouched). -/
def Engine.setOptimizer {B : Type} (e : Engine B) (newOpt : Optimizer) :
    Engine B × Except Err Unit :=
  if (newOpt.init e.params).struct ≠ e.optimizerState.struct then
    (e, .error (.attributeError
      "cannot set optimizer attr: mismatch in optimizer_state structure"))
  else
    ({ e with optimizer := newOpt }, .ok ())

/-! ## Constructors

`BaseTDLearning.__init__` and the `__init__` methods of the V and Q variants.
Python objects passed as function approximators are modeled by their class
tag (the target of the `isinstance` checks) plus the parameter / state trees
the constructor reads. -/

/-- The Python class of an argument object, as tested by the constructors'
`isinstance` checks: `coax.V`, `coax.Q`, a policy, a `PolicyRegularizer`, or
some other unrelated type. -/
inductive PyKind where
  | vK
  | qK
  | policyK
  | regK
  | otherK
deriving DecidableEq, Repr

/-- A Python object passed to a constructor: its class tag and the
parameter / function-state trees the engine reads from it. -/
structure PyObj where
  kind : PyKind
  params : PyTree
  functionState : PyTree
deriving DecidableEq, Repr

/-- The `f_targ` argument as passed on to the base constructor by a variant:
either a single function-approximator object or (for the Q-variant) a
list / tuple of objects. -/
inductive FTargArg where
  | single (o : PyObj)
  | coll (xs : List PyObj)
deriving DecidableEq, Repr

/-- Modelled from the spec: the default optimizer `optax.adam(1e-3)` is not
under `src/`; the spec only says it is a standard adaptive gradient optimizer
whose state is initialized from the online parameters.  Its `init` and
`update` behavior is irrelevant to every claim about the constructors. -/
def defaultAdam : Optimizer where
  init := fun p => p
  update := fun g s _ => (g, s)

/-- The state assembled by `BaseTDLearning.__init__`: the online function,
the resolved target function (`f` itself when `f_targ` is `None`), the
optimizer and its freshly initialized state. -/
structure BaseState where
  f : PyObj
  fTarg : FTargArg
  optimizer : Optimizer
  optimizerState : PyTree

/-- Embedding of `BaseTDLearning.__init__`: checks that `policy_regularizer`
is a `PolicyRegularizer` or `None` (raising `TypeError` otherwise), resolves
the default optimizer, and initializes the optimizer state from the online
parameters. -/
def baseInit (f : PyObj) (fTarg : Option FTargArg) (optimizer : Option Optimizer)
    (policyRegularizer : Option PyObj) : Except Err BaseState :=
  if (match policyRegularizer with
      | some r => decide (r.kind ≠ .regK)
      | none => false) then
    .error (.typeError "policy_regularizer must be PolicyRegularizer")
  else
    let opt := optimizer.getD defaultAdam
    .ok { f := f, fTarg := fTarg.getD (.single f), optimizer := opt,
          optimizerState := opt.init f.params }

/-- Embedding of `BaseTDLearningV.__init__`: raises `TypeError` unless `v`
is a `coax.V` and `v_targ` is a `coax.V` or `None`, then delegates to the
base constructor.  (The error message for `v_targ` reads `coax.Q` in the
source; only the message text, which we reproduce, is affected.) -/
def mkVLearner (v : PyObj) (vTarg : Option PyObj) (optimizer : Option Optimizer)
    (policyRegularizer : Option PyObj) : Except Err BaseState :=
  if v.kind ≠ .vK then
    .error (.typeError "v must be a coax.V")
  else if (match vTarg with
           | some t => decide (t.kind ≠ .vK)
           | none => false) then
    .error (.typeError "v_targ must be a coax.Q or None")
  else
    baseInit v (vTarg.map .single) optimizer policyRegularizer

/-- Embedding of `BaseTDLearningQ.__init__`: raises `TypeError` unless `q`
is a `coax.Q` and `q_targ` satisfies
`isinstance(q_targ, (Q, type(None), list, tuple))` — that is, `q_targ` is
`None`, a single `coax.Q` object, or ANY list or tuple (the elements of a
list or tuple are not inspected); then delegates to the base constructor. -/
def mkQLearner (q : PyObj) (qTarg : Option FTargArg) (optimizer : Option Optimizer)
    (policyRegularizer : Option PyObj) : Except Err BaseState :=
  if q.kind ≠ .qK then
    .error (.typeError "q must be a coax.Q")
  else if (match qTarg with
           | some (.single o) => decide (o.kind ≠ .qK)
           | _ => false) then
    .error (.typeError "q_targ must be a coax.Q or None")
  else
    baseInit q qTarg optimizer policyRegularizer

/-- True exactly when the constructor outcome is a raised `TypeError`. -/
def isTypeErrorOut {α : Type} : Except Err α → Bool
  | .error (.typeError _) => true
  | _ => false

/-- True exactly when the constructor outcome is a successfully built
state. -/
def isOkOut {α : Type} : Except Err α → Bool
  | .ok _ => true
  | _ => false

/-! ## The analytic layer

The loss / TD-error / gradient-and-metrics closures built inside
`BaseTDLearningV.__init__` and `BaseTDLearningQ.__init__` operate on batched
real arrays and are differentiated by `jax.grad`.  A batched array of size
`n` is a vector `Fin n → ℝ`; an array of unknown size (the output of a
policy regularizer, whose shape is checked at run time) is a sigma pair of a
size and a vector.  The external collaborators (the subclass `target_func`,
the function approximators, the regularizer, the loss) are fields of a model
structure, over opaque types for parameters `P`, function state `St`,
transition batches `B`, observation batches `O`, action batches `Act`,
distribution parameters `D` and regularizer hyperparameters `H`. -/

/-- A batched real array of known size. -/
abbrev Vec (n : ℕ) := Fin n → ℝ

/-- A real array of run-time size, for values whose shape is checked
dynamically. -/
abbrev Arr := Σ m : ℕ, Vec m

/-- The `i`-th key drawn from `hk.PRNGSequence(rng)` by successive `next`
calls. -/
def key (rng i : ℕ) : ℕ := Nat.pair rng i

/-- Embedding of `jax.grad` at a vector argument: the vector of
one-dimensional derivatives of the scalar function in each coordinate. -/
noncomputable def vecGrad {n : ℕ} (L : Vec n → ℝ) (x : Vec n) : Vec n :=
  fun i => deriv (fun t => L (Function.update x i t)) (x i)

/-- Modelled from the spec: `coax.value_losses.mse` is not under `src/`; the
spec calls it a plain squared-error loss for which the TD-error equals
target minus prediction, i.e. the half sum of squared residuals. -/
noncomputable def mse {n : ℕ} (y yhat : Vec n) : ℝ :=
  ∑ i, (yhat i - y i) ^ 2 / 2

/-- Embedding of `jnp.mean` on a batched array. -/
noncomputable def vmean {n : ℕ} (v : Vec n) : ℝ := (∑ i, v i) / n

/-- Embedding of `jnp.sqrt(jnp.mean(jnp.square(v)))` on a batched array. -/
noncomputable def vrmse {n : ℕ} (v : Vec n) : ℝ :=
  Real.sqrt ((∑ i, v i ^ 2) / n)

/-- The aggregated `target_params` dict of `BaseTDLearningV`: the online
parameters under key `v`, the target-network parameters under `v_targ`, and
the regularizer policy parameters / hyperparameters (absent when no
regularizer is configured). -/
structure VTargetParams (P H : Type) where
  v : P
  v_targ : P
  reg_pi : Option P
  reg_hparams : Option H

/-- The aggregated `target_function_state` dict of `BaseTDLearningV`. -/
structure VTargetState (St : Type) where
  v : St
  v_targ : St
  reg_pi : Option St

/-- An external policy regularizer: a nested policy forward pass
(`self.policy_regularizer.pi.function`) producing distribution parameters,
and the regularizer function itself
(`self.policy_regularizer.function(dist_params, **hparams)`), whose output
shape is only known at run time. -/
structure Regularizer (P St O D H : Type) where
  piFunction : Option P → Option St → ℕ → O → Bool → D × Option St
  function : D → Option H → Arr

/-- The external collaborators of a `BaseTDLearningV` instance, as used by
the closures defined in its constructor: the batch field accessor
`transition_batch.S`, the abstract `target_func`, the online and target
forward passes `self.v.function` / `self.v_targ.function`, the optional
policy regularizer, and the loss function. -/
structure VModel (P St B O D H : Type) (n : ℕ) where
  name : String
  batchS : B → O
  targetFunc : VTargetParams P H → VTargetState St → ℕ → B → Vec n
  vFunction : P → St → ℕ → O → Bool → Vec n × St
  vTargFunction : P → St → ℕ → O → Bool → Vec n × St
  policyRegularizer : Option (Regularizer P St O D H)
  lossFunction : Vec n → Vec n → ℝ

/-- The auxiliary data `(loss, G, V, S, state_new)` returned by the V-variant
`loss_func` alongside the loss. -/
structure VAux (St O : Type) (n : ℕ) where
  loss : ℝ
  G : Vec n
  V : Vec n
  S : O
  state_new : St

/-- Embedding of the closure `loss_func` from `BaseTDLearningV.__init__`:
computes the bootstrap target `G` via `target_func`, the online prediction
`V` in training mode, subtracts the regularizer output from `G` when a
regularizer is configured (after an assertion that its shape matches `G`,
raised as `AssertionError` on mismatch), and returns the loss together with
the auxiliary data. -/
noncomputable def VModel.loss_func {P St B O D H : Type} {n : ℕ}
    (m : VModel P St B O D H n) (params : P) (tparams : VTargetParams P H)
    (state : St) (tstate : VTargetState St) (rng : ℕ) (tb : B) :
    Except Err (ℝ × VAux St O n) :=
  let S := m.batchS tb
  let G := m.targetFunc tparams tstate (key rng 0) tb
  let VS := m.vFunction params state (key rng 1) S true
  match m.policyRegularizer with
  | none =>
      let loss := m.lossFunction G VS.1
      .ok (loss, ⟨loss, G, VS.1, S, VS.2⟩)
  | some preg =>
      let dp := (preg.piFunction tparams.reg_pi tstate.reg_pi (key rng 2) S false).1
      let r := preg.function dp tparams.reg_hparams
      if h : r.1 = n then
        let G2 : Vec n := fun i => G i + -(r.2 (Fin.cast h.symm i))
        let loss := m.lossFunction G2 VS.1
        .ok (loss, ⟨loss, G2, VS.1, S, VS.2⟩)
      else .error .assertionError

/-- Embedding of the closure `td_error_func` from `BaseTDLearningV.__init__`:
computes `G` via `target_func` and the online prediction `V` without
training-mode state update, applies the regularizer adjustment to `G` (same
assertion as in `loss_func`), and returns the negative gradient of the loss
function with respect to its second (prediction) argument at `(G, V)`. -/
noncomputable def VModel.td_error_func {P St B O D H : Type} {n : ℕ}
    (m : VModel P St B O D H n) (params : P) (tparams : VTargetParams P H)
    (state : St) (tstate : VTargetState St) (rng : ℕ) (tb : B) :
    Except Err (Vec n) :=
  let S := m.batchS tb
  let G := m.targetFunc tparams tstate (key rng 0) tb
  let V := (m.vFunction params state (key rng 1) S false).1
  match m.policyRegularizer with
  | none =>
      .ok (fun i => -(vecGrad (fun v => m.lossFunction G v) V i))
  | some preg =>
      let dp := (preg.piFunction tparams.reg_pi tstate.reg_pi (key rng 2) S false).1
      let r := preg.function dp tparams.reg_hparams
      if h : r.1 = n then
        let G2 : Vec n := fun i => G i + -(r.2 (Fin.cast h.symm i))
        .ok (fun i => -(vecGrad (fun v => m.lossFunction G2 v) V i))
      else .error .assertionError

/-- Embedding of the closure `grads_and_metrics_func` from
`BaseTDLearningV.__init__`.  The differentiation of `loss_func` with respect
to the online parameters (`jax.grad(loss_func, has_aux=True)`) is abstracted
as the argument `gradLoss`, which returns the gradient tree (of opaque type
`GT`) together with the same auxiliary data as `loss_func`, or propagates an
error raised while evaluating `loss_func`.  The external helper
`coax.utils.get_grads_diagnostics` is the argument `gradsDiagnostics`.  The
target-network diagnostic `V_targ` is evaluated at the target parameters
`target_params` key `v_targ` but at the ONLINE function state `state`, as in
the source. -/
noncomputable def VModel.grads_and_metrics_func {P St B O D H : Type} {n : ℕ}
    {GT : Type} (m : VModel P St B O D H n)
    (gradLoss : P → VTargetParams P H → St → VTargetState St → ℕ → B →
      Except Err (GT × VAux St O n))
    (gradsDiagnostics : GT → List (String × ℝ))
    (params : P) (tparams : VTargetParams P H) (state : St)
    (tstate : VTargetState St) (rng : ℕ) (tb : B) :
    Except Err (GT × St × List (String × ℝ)) := do
  let ga ← gradLoss params tparams state tstate (key rng 0) tb
  let grads := ga.1
  let aux := ga.2
  let Vt := (m.vTargFunction tparams.v_targ state (key rng 1) aux.S false).1
  let err : Vec n := fun i => aux.V i - aux.G i
  let errT : Vec n := fun i => Vt i - aux.V i
  .ok (grads, aux.state_new,
    [ (m.name ++ "/loss", aux.loss),
      (m.name ++ "/bias", vmean err),
      (m.name ++ "/rmse", vrmse err),
      (m.name ++ "/bias_targ", vmean errT),
      (m.name ++ "/rmse_targ", vrmse errT) ] ++ gradsDiagnostics grads)

/-- The alternative convention for the V-variant diagnostic, following the
specification words for the Q-variant: identical to
`VModel.grads_and_metrics_func` except that `V_targ` is evaluated at the
component `v_targ` of the aggregated TARGET function state, rather than at
the online function state.  Defined only to be compared with the embedding
of the source. -/
noncomputable def VModel.grads_and_metrics_func_targState
    {P St B O D H : Type} {n : ℕ} {GT : Type} (m : VModel P St B O D H n)
    (gradLoss : P → VTargetParams P H → St → VTargetState St → ℕ → B →
      Except Err (GT × VAux St O n))
    (gradsDiagnostics : GT → List (String × ℝ))
    (params : P) (tparams : VTargetParams P H) (state : St)
    (tstate : VTargetState St) (rng : ℕ) (tb : B) :
    Except Err (GT × St × List (String × ℝ)) := do
  let ga ← gradLoss params tparams state tstate (key rng 0) tb
  let grads := ga.1
  let aux := ga.2
  let Vt := (m.vTargFunction tparams.v_targ tstate.v_targ (key rng 1) aux.S false).1
  let err : Vec n := fun i => aux.V i - aux.G i
  let errT : Vec n := fun i => Vt i - aux.V i
  .ok (grads, aux.state_new,
    [ (m.name ++ "/loss", aux.loss),
      (m.name ++ "/bias", vmean err),
      (m.name ++ "/rmse", vrmse err),
      (m.name ++ "/bias_targ", vmean errT),
      (m.name ++ "/rmse_targ", vrmse errT) ] ++ gradsDiagnostics grads)

/-- The aggregated `target_params` dict of `BaseTDLearningQ`. -/
structure QTargetParams (P H : Type) where
  q : P
  q_targ : P
  reg_pi : Option P
  reg_hparams : Option H

/-- The aggregated `target_function_state` dict of `BaseTDLearningQ`. -/
structure QTargetState (St : Type) where
  q : St
  q_targ : St
  reg_pi : Option St

/-- The external collaborators of a `BaseTDLearningQ` instance: the batch
field accessors for observations and actions, the action preprocessing step,
the abstract `target_func`, the type-1 forward passes of the online and
target networks (taking state and action jointly), the optional policy
regularizer, and the loss function. -/
structure QModel (P St B O Act D H : Type) (n : ℕ) where
  name : String
  batchS : B → O
  batchA : B → Act
  actionPreprocessor : Act → Act
  targetFunc : QTargetParams P H → QTargetState St → ℕ → B → Vec n
  qFunctionType1 : P → St → ℕ → O → Act → Bool → Vec n × St
  qTargFunctionType1 : P → St → ℕ → O → Act → Bool → Vec n × St
  policyRegularizer : Option (Regularizer P St O D H)
  lossFunction : Vec n → Vec n → ℝ

/-- The auxiliary data `(loss, G, Q, S, A, state_new)` returned by the
Q-variant `loss_func` alongside the loss. -/
structure QAux (St O Act : Type) (n : ℕ) where
  loss : ℝ
  G : Vec n
  Q : Vec n
  S : O
  A : Act
  state_new : St

/-- Embedding of the closure `loss_func` from `BaseTDLearningQ.__init__`:
like the V-variant but threaded through the preprocessed state/action pair
and the type-1 forward pass. -/
noncomputable def QModel.loss_func {P St B O Act D H : Type} {n : ℕ}
    (m : QModel P St B O Act D H n) (params : P) (tparams : QTargetParams P H)
    (state : St) (tstate : QTargetState St) (rng : ℕ) (tb : B) :
    Except Err (ℝ × QAux St O Act n) :=
  let S := m.batchS tb
  let A := m.actionPreprocessor (m.batchA tb)
  let G := m.targetFunc tparams tstate (key rng 0) tb
  let QS := m.qFunctionType1 params state (key rng 1) S A true
  match m.policyRegularizer with
  | none =>
      let loss := m.lossFunction G QS.1
      .ok (loss, ⟨loss, G, QS.1, S, A, QS.2⟩)
  | some preg =>
      let dp := (preg.piFunction tparams.reg_pi tstate.reg_pi (key rng 2) S false).1
      let r := preg.function dp tparams.reg_hparams
      if h : r.1 = n then
        let G2 : Vec n := fun i => G i + -(r.2 (Fin.cast h.symm i))
        let loss := m.lossFunction G2 QS.1
        .ok (loss, ⟨loss, G2, QS.1, S, A, QS.2⟩)
      else .error .assertionError

/-- Embedding of the closure `td_error_func` from `BaseTDLearningQ.__init__`:
computes `G` via `target_func` and the online prediction `Q` (type-1 forward
pass on the preprocessed action, without training-mode state update), applies
the regularizer adjustment, and returns the negative gradient of the loss
function with respect to its second argument at `(G, Q)`. -/
noncomputable def QModel.td_error_func {P St B O Act D H : Type} {n : ℕ}
    (m : QModel P St B O Act D H n) (params : P) (tparams : QTargetParams P H)
    (state : St) (tstate : QTargetState St) (rng : ℕ) (tb : B) :
    Except Err (Vec n) :=
  let S := m.batchS tb
  let A := m.actionPreprocessor (m.batchA tb)
  let G := m.targetFunc tparams tstate (key rng 0) tb
  let Q := (m.qFunctionType1 params state (key rng 1) S A false).1
  match m.policyRegularizer with
  | none =>
      .ok (fun i => -(vecGrad (fun q => m.lossFunction G q) Q i))
  | some preg =>
      let dp := (preg.piFunction tparams.reg_pi tstate.reg_pi (key rng 2) S false).1
      let r := preg.function dp tparams.reg_hparams
      if h : r.1 = n then
        let G2 : Vec n := fun i => G i + -(r.2 (Fin.cast h.symm i))
        .ok (fun i => -(vecGrad (fun q => m.lossFunction G2 q) Q i))
      else .error .assertionError

/-- Embedding of the closure `grads_and_metrics_func` from
`BaseTDLearningQ.__init__`, with the differentiation of `loss_func`
abstracted as `gradLoss` exactly as in the V-variant.  The target-network
diagnostic `Q_targ` is evaluated at the target parameters key `q_targ` AND
at the component `q_targ` of the aggregated target function state, as in the
source. -/
noncomputable def QModel.grads_and_metrics_func {P St B O Act D H : Type}
    {n : ℕ} {GT : Type} (m : QModel P St B O Act D H n)
    (gradLoss : P → QTargetParams P H → St → QTargetState St → ℕ → B →
      Except Err (GT × QAux St O Act n))
    (gradsDiagnostics : GT → List (String × ℝ))
    (params : P) (tparams : QTargetParams P H) (state : St)
    (tstate : QTargetState St) (rng : ℕ) (tb : B) :
    Except Err (GT × St × List (String × ℝ)) := do
  let ga ← gradLoss params tparams state tstate (key rng 0) tb
  let grads := ga.1
  let aux := ga.2
  let Qt := (m.qTargFunctionType1 tparams.q_targ tstate.q_targ (key rng 1)
    aux.S aux.A false).1
  let err : Vec n := fun i => aux.Q i - aux.G i
  let errT : Vec n := fun i => Qt i - aux.Q i
  .ok (grads, aux.state_new,
    [ (m.name ++ "/loss", aux.loss),
      (m.name ++ "/bias", vmean err),
      (m.name ++ "/rmse", vrmse err),
      (m.name ++ "/bias_targ", vmean errT),
      (m.name ++ "/rmse_targ", vrmse errT) ] ++ gradsDiagnostics grads)

/-! ## Concrete instances

Concrete engines, optimizers, objects and models used to evaluate the
theorems on closed inputs. -/

/-- An optimizer whose update ignores the optional `params` argument, like
the default adaptive optimizer. -/
def sgdLikeOpt : Optimizer where
  init := fun p => p
  update := fun g s _ => (g, s)

/-- An optimizer whose update genuinely uses the optional `params` argument:
it returns the parameters themselves as updates when they are passed, and
the gradients otherwise (compare optax transformations that require
`params`). -/
def paramUsingOpt : Optimizer where
  init := fun p => p
  update := fun g s p =>
    match p with
    | some ps => (ps, s)
    | none => (g, s)

/-- An optimizer whose state has a different tree structure (an empty
container instead of a leaf). -/
def emptyStateOpt : Optimizer where
  init := fun _ => .nil
  update := fun g s _ => (g, s)

/-- A concrete engine whose gradient computation produces a NaN gradient
leaf. -/
def engineNaNEx : Engine Unit where
  params := .leaf [.fin 0]
  functionState := .nil
  rng := 0
  optimizer := sgdLikeOpt
  optimizerState := .leaf [.fin 0]
  targetParams := .nil
  targetFunctionState := .nil
  applyGradsFunc := apply_grads_func
  gmFunc := fun _ _ _ _ _ _ => (.leaf [.nan], .nil, [])

/-- A concrete engine whose gradient computation produces an infinite (but
not NaN) gradient leaf. -/
def engineInfEx : Engine Unit where
  params := .leaf [.fin 0]
  functionState := .nil
  rng := 0
  optimizer := sgdLikeOpt
  optimizerState := .leaf [.fin 0]
  targetParams := .nil
  targetFunctionState := .nil
  applyGradsFunc := apply_grads_func
  gmFunc := fun _ _ _ _ _ _ => (.leaf [.inf], .nil, [])

/-- A concrete engine whose gradient computation produces a finite gradient
and one metric. -/
def engineOkEx : Engine Unit where
  params := .leaf [.fin 0]
  functionState := .nil
  rng := 0
  optimizer := sgdLikeOpt
  optimizerState := .leaf [.fin 0]
  targetParams := .nil
  targetFunctionState := .nil
  applyGradsFunc := apply_grads_func
  gmFunc := fun _ _ _ _ _ _ => (.leaf [.fin 1], .nil, [("loss", .fin 1)])

/-- The engine `engineOkEx` with a different optimizer and optimizer state
but identical online parameters, function states, rng and gradient
closure. -/
def engineOkEx2 : Engine Unit :=
  { engineOkEx with optimizer := paramUsingOpt, optimizerState := .leaf [.fin 5] }

/-- A `coax.V` instance. -/
def vObjEx : PyObj where
  kind := .vK
  params := .leaf [.fin 0]
  functionState := .nil

/-- A `coax.Q` instance. -/
def qObjEx : PyObj where
  kind := .qK
  params := .leaf [.fin 0]
  functionState := .nil

/-- A policy object, which is neither a `coax.V` nor a `coax.Q`. -/
def piObjEx : PyObj where
  kind := .policyK
  params := .leaf [.fin 0]
  functionState := .nil

/-- A concrete V-learner model with squared-error loss and no regularizer
(the opaque collaborator types are all instantiated at `ℕ`): the target is
constantly `1` and presumably the online prediction constantly `0`. -/
noncomputable def vModelEx : VModel ℕ ℕ ℕ ℕ ℕ ℕ 1 where
  name := "SimpleTDV"
  batchS := fun b => b
  targetFunc := fun _ _ _ _ => fun _ => 1
  vFunction := fun _ st _ _ _ => (fun _ => 0, st)
  vTargFunction := fun _ st _ _ _ => (fun _ => 0, st)
  policyRegularizer := none
  lossFunction := mse

/-- A concrete Q-learner model with squared-error loss and no
regularizer. -/
noncomputable def qModelEx : QModel ℕ ℕ ℕ ℕ ℕ ℕ ℕ 1 where
  name := "SimpleTDQ"
  batchS := fun b => b
  batchA := fun b => b
  actionPreprocessor := fun a => a
  targetFunc := fun _ _ _ _ => fun _ => 1
  qFunctionType1 := fun _ st _ _ _ _ => (fun _ => 0, st)
  qTargFunctionType1 := fun _ st _ _ _ _ => (fun _ => 0, st)
  policyRegularizer := none
  lossFunction := mse

/-- Concrete aggregated target parameters for the `ℕ`-instantiated V
models. -/
def vTPEx : VTargetParams ℕ ℕ := ⟨0, 0, none, none⟩

/-- Concrete aggregated target function state for the `ℕ`-instantiated V
models. -/
def vTSEx : VTargetState ℕ := ⟨0, 0, none⟩

/-- Concrete aggregated target parameters for the `ℕ`-instantiated Q
models. -/
def qTPEx : QTargetParams ℕ ℕ := ⟨0, 0, none, none⟩

/-- Concrete aggregated target function state for the `ℕ`-instantiated Q
models. -/
def qTSEx : QTargetState ℕ := ⟨0, 0, none⟩

/-- A regularizer whose output has shape `1`, matching the batch size of the
models below. -/
noncomputable def regMatchEx : Regularizer ℕ ℕ ℕ ℕ ℕ where
  piFunction := fun _ _ _ _ _ => (0, none)
  function := fun _ _ => ⟨1, fun _ => 1 / 2⟩

/-- A regularizer whose output has shape `2`, mismatching the batch size of
the models below. -/
noncomputable def regMismatchEx : Regularizer ℕ ℕ ℕ ℕ ℕ where
  piFunction := fun _ _ _ _ _ => (0, none)
  function := fun _ _ => ⟨2, fun _ => 0⟩

/-- The model `vModelEx` with the shape-matching regularizer configured. -/
noncomputable def vModelRegEx : VModel ℕ ℕ ℕ ℕ ℕ ℕ 1 :=
  { vModelEx with policyRegularizer := some regMatchEx }

/-- The model `vModelEx` with the shape-mismatching regularizer
configured. -/
noncomputable def vModelRegBadEx : VModel ℕ ℕ ℕ ℕ ℕ ℕ 1 :=
  { vModelEx with policyRegularizer := some regMismatchEx }

/-- A V-learner model whose function state is a real number and whose
target-network forward pass returns the function state it is given, so that
the prediction reveals which function state was passed. -/
noncomputable def vModelStEx : VModel ℕ ℝ ℕ ℕ ℕ ℕ 1 where
  name := "StateTDV"
  batchS := fun b => b
  targetFunc := fun _ _ _ _ => fun _ => 0
  vFunction := fun _ st _ _ _ => (fun _ => 0, st)
  vTargFunction := fun _ st _ _ _ => (fun _ => st, st)
  policyRegularizer := none
  lossFunction := mse

/-- A gradient-of-loss oracle for `vModelStEx` that is constant in all of
its arguments (gradient tree type `ℕ`). -/
noncomputable def gradLossStEx :
    ℕ → VTargetParams ℕ ℕ → ℝ → VTargetState ℝ → ℕ → ℕ →
    Except Err (ℕ × VAux ℝ ℕ 1) :=
  fun _ _ _ _ _ _ => .ok (0, ⟨0, fun _ => 0, fun _ => 0, 0, 0⟩)

/-- Aggregated target function state for `vModelStEx` whose `v_targ`
component (`1`) differs from the online function state (`0`) used in the
theorems below. -/
def vTSStEx : VTargetState ℝ := ⟨0, 1, none⟩

/-- A Q-learner model with real function state whose target-network forward
pass reveals the function state it is given. -/
noncomputable def qModelStEx : QModel ℕ ℝ ℕ ℕ ℕ ℕ ℕ 1 where
  name := "StateTDQ"
  batchS := fun b => b
  batchA := fun b => b
  actionPreprocessor := fun a => a
  targetFunc := fun _ _ _ _ => fun _ => 0
  qFunctionType1 := fun _ st _ _ _ _ => (fun _ => 0, st)
  qTargFunctionType1 := fun _ st _ _ _ _ => (fun _ => st, st)
  policyRegularizer := none
  lossFunction := mse

/-- A gradient-of-loss oracle for `qModelStEx` that is constant in all of
its arguments. -/
noncomputable def gradLossQStEx :
    ℕ → QTargetParams ℕ ℕ → ℝ → QTargetState ℝ → ℕ → ℕ →
    Except Err (ℕ × QAux ℝ ℕ ℕ 1) :=
  fun _ _ _ _ _ _ => .ok (0, ⟨0, fun _ => 0, fun _ => 0, 0, 0, 0⟩)

/-- Aggregated target function state for `qModelStEx`. -/
def qTSStEx : QTargetState ℝ := ⟨0, 1, none⟩

/-! ## Theorems -/

/-- The gradient of the squared-error loss with respect to the prediction is
the vector of signed residuals `prediction - target`. -/
theorem vecGrad_mse {n : ℕ} (y x : Vec n) :
    vecGrad (fun v => mse y v) x = fun i => x i - y i := by
  funext i
  have h1 : ∀ t : ℝ, mse y (Function.update x i t)
      = (t - y i) ^ 2 / 2 + ∑ j ∈ Finset.univ.erase i, (x j - y j) ^ 2 / 2 := by
    intro t
    unfold mse
    rw [← Finset.add_sum_erase Finset.univ _ (Finset.mem_univ i)]
    congr 1
    · rw [Function.update_same]
    · refine Finset.sum_congr rfl fun j hj => ?_
      rw [Function.update_noteq (Finset.ne_of_mem_erase hj)]
  have h2 : HasDerivAt
      (fun t : ℝ => (t - y i) ^ 2 / 2
        + ∑ j ∈ Finset.univ.erase i, (x j - y j) ^ 2 / 2)
      (x i - y i) (x i) := by
    have hb : HasDerivAt (fun t : ℝ => t - y i) 1 (x i) :=
      (hasDerivAt_id (x i)).sub_const (y i)
    have hp := hb.pow 2
    have hd := (hp.div_const 2).add_const
      (∑ j ∈ Finset.univ.erase i, (x j - y j) ^ 2 / 2)
    convert hd using 1
    push_cast
    ring
  simp only [vecGrad]
  rw [show (fun t => mse y (Function.update x i t))
      = fun t : ℝ => (t - y i) ^ 2 / 2
        + ∑ j ∈ Finset.univ.erase i, (x j - y j) ^ 2 / 2 from funext h1,
    h2.deriv]

/-- C2: for every transition batch, `td_error` returns per transition the
negative derivative of the loss function with respect to the predicted
value, evaluated at the bootstrap target and the online prediction computed
without training-mode state update (this is the definition of
`td_error_func`, both variants); in particular, when the loss function is
plain squared error and no regularizer is configured, the V-variant and the
Q-variant TD-errors equal target minus prediction elementwise. -/
theorem td_error_mse_residual :
    (∀ (P St B O D H : Type) (n : ℕ) (m : VModel P St B O D H n)
       (params : P) (tparams : VTargetParams P H) (state : St)
       (tstate : VTargetState St) (rng : ℕ) (tb : B),
       m.policyRegularizer = none →
       m.lossFunction = mse →
       m.td_error_func params tparams state tstate rng tb
         = .ok (fun i =>
             m.targetFunc tparams tstate (key rng 0) tb i
             - (m.vFunction params state (key rng 1) (m.batchS tb) false).1 i))
    ∧ (∀ (P St B O Act D H : Type) (n : ℕ) (m : QModel P St B O Act D H n)
       (params : P) (tparams : QTargetParams P H) (state : St)
       (tstate : QTargetState St) (rng : ℕ) (tb : B),
       m.policyRegularizer = none →
       m.lossFunction = mse →
       m.td_error_func params tparams state tstate rng tb
         = .ok (fun i =>
             m.targetFunc tparams tstate (key rng 0) tb i
             - (m.qFunctionType1 params state (key rng 1) (m.batchS tb)
                 (m.actionPreprocessor (m.batchA tb)) false).1 i)) := by
  constructor
  · intro P St B O D H n m params tparams state tstate rng tb hreg hloss
    simp only [VModel.td_error_func, hreg, hloss, vecGrad_mse, neg_sub]
  · intro P St B O Act D H n m params tparams state tstate rng tb hreg hloss
    simp only [QModel.td_error_func, hreg, hloss, vecGrad_mse, neg_sub]

/-- Witness for C2: the theorem evaluated on the concrete squared-error V
and Q models. -/
theorem td_error_mse_residual_witness :
    vModelEx.td_error_func 0 vTPEx 0 vTSEx 0 0
      = .ok (fun i =>
          vModelEx.targetFunc vTPEx vTSEx (key 0 0) 0 i
          - (vModelEx.vFunction 0 0 (key 0 1) (vModelEx.batchS 0) false).1 i)
    ∧ qModelEx.td_error_func 0 qTPEx 0 qTSEx 0 0
      = .ok (fun i =>
          qModelEx.targetFunc qTPEx qTSEx (key 0 0) 0 i
          - (qModelEx.qFunctionType1 0 0 (key 0 1) (qModelEx.batchS 0)
              (qModelEx.actionPreprocessor (qModelEx.batchA 0)) false).1 i) :=
  ⟨td_error_mse_residual.1 ℕ ℕ ℕ ℕ ℕ ℕ 1 vModelEx 0 vTPEx 0 vTSEx 0 0 rfl rfl,
   td_error_mse_residual.2 ℕ ℕ ℕ ℕ ℕ ℕ ℕ 1 qModelEx 0 qTPEx 0 qTSEx 0 0 rfl rfl⟩

/-- C6: in the V-learner loss computation with a configured policy
regularizer, the regularizer output — evaluated via the regularizer policy
forward pass at the `reg_pi` components of the aggregated target parameters
and target state — is subtracted from the bootstrap target `G` before the
loss is computed as `loss_function(G, V)`; the loss computation raises an
assertion failure exactly when the regularizer output shape differs from the
shape of `G`; and an error raised while evaluating the (differentiated) loss
propagates out of the gradients-and-metrics computation, before any gradient
is returned. -/
theorem v_loss_regularizer_subtract_assert :
    ∀ (P St B O D H : Type) (n : ℕ) (m : VModel P St B O D H n)
      (preg : Regularizer P St O D H),
      m.policyRegularizer = some preg →
      ∀ (params : P) (tparams : VTargetParams P H) (state : St)
        (tstate : VTargetState St) (rng : ℕ) (tb : B),
      (∀ h : (preg.function
          (preg.piFunction tparams.reg_pi tstate.reg_pi (key rng 2)
            (m.batchS tb) false).1 tparams.reg_hparams).1 = n,
        m.loss_func params tparams state tstate rng tb
          = .ok
              (m.lossFunction
                (fun i => m.targetFunc tparams tstate (key rng 0) tb i
                  - (preg.function
                      (preg.piFunction tparams.reg_pi tstate.reg_pi (key rng 2)
                        (m.batchS tb) false).1 tparams.reg_hparams).2
                      (Fin.cast h.symm i))
                (m.vFunction params state (key rng 1) (m.batchS tb) true).1,
               ⟨m.lossFunction
                  (fun i => m.targetFunc tparams tstate (key rng 0) tb i
                    - (preg.function
                        (preg.piFunction tparams.reg_pi tstate.reg_pi (key rng 2)
                          (m.batchS tb) false).1 tparams.reg_hparams).2
                        (Fin.cast h.symm i))
                  (m.vFunction params state (key rng 1) (m.batchS tb) true).1,
                fun i => m.targetFunc tparams tstate (key rng 0) tb i
                  - (preg.function
                      (preg.piFunction tparams.reg_pi tstate.reg_pi (key rng 2)
                        (m.batchS tb) false).1 tparams.reg_hparams).2
                      (Fin.cast h.symm i),
                (m.vFunction params state (key rng 1) (m.batchS tb) true).1,
                m.batchS tb,
                (m.vFunction params state (key rng 1) (m.batchS tb) true).2⟩))
      ∧ ((preg.function
            (preg.piFunction tparams.reg_pi tstate.reg_pi (key rng 2)
              (m.batchS tb) false).1 tparams.reg_hparams).1 ≠ n →
          m.loss_func params tparams state tstate rng tb
            = .error .assertionError)
      ∧ (∀ (GT : Type)
           (gradLoss : P → VTargetParams P H → St → VTargetState St → ℕ → B →
             Except Err (GT × VAux St O n))
           (gd : GT → List (String × ℝ)) (e : Err),
           gradLoss params tparams state tstate (key rng 0) tb = .error e →
           m.grads_and_metrics_func gradLoss gd params tparams state tstate rng tb
             = .error e) := by
  intro P St B O D H n m preg hreg params tparams state tstate rng tb
  refine ⟨?_, ?_, ?_⟩
  · intro h
    simp only [VModel.loss_func, hreg, dif_pos h, sub_eq_add_neg]
  · intro h
    simp only [VModel.loss_func, hreg, dif_neg h]
  · intro GT gradLoss gd e hgl
    simp only [VModel.grads_and_metrics_func, hgl]
    rfl

/-- Witness for C6: on the concrete regularized models, the shape-matching
regularizer yields the debiased-target loss and the shape-mismatching
regularizer raises the assertion failure, which then propagates out of the
gradients-and-metrics computation. -/
theorem v_loss_regularizer_subtract_assert_witness :
    vModelRegBadEx.loss_func 0 vTPEx 0 vTSEx 0 0 = .error .assertionError
    ∧ vModelRegEx.loss_func 0 vTPEx 0 vTSEx 0 0
      = .ok
          (vModelRegEx.lossFunction
            (fun i => vModelRegEx.targetFunc vTPEx vTSEx (key 0 0) 0 i
              - (regMatchEx.function
                  (regMatchEx.piFunction vTPEx.reg_pi vTSEx.reg_pi (key 0 2)
                    (vModelRegEx.batchS 0) false).1 vTPEx.reg_hparams).2
                  (Fin.cast rfl i))
            (vModelRegEx.vFunction 0 0 (key 0 1) (vModelRegEx.batchS 0) true).1,
           ⟨vModelRegEx.lossFunction
              (fun i => vModelRegEx.targetFunc vTPEx vTSEx (key 0 0) 0 i
                - (regMatchEx.function
                    (regMatchEx.piFunction vTPEx.reg_pi vTSEx.reg_pi (key 0 2)
                      (vModelRegEx.batchS 0) false).1 vTPEx.reg_hparams).2
                    (Fin.cast rfl i))
              (vModelRegEx.vFunction 0 0 (key 0 1) (vModelRegEx.batchS 0) true).1,
            fun i => vModelRegEx.targetFunc vTPEx vTSEx (key 0 0) 0 i
              - (regMatchEx.function
                  (regMatchEx.piFunction vTPEx.reg_pi vTSEx.reg_pi (key 0 2)
                    (vModelRegEx.batchS 0) false).1 vTPEx.reg_hparams).2
                  (Fin.cast rfl i),
            (vModelRegEx.vFunction 0 0 (key 0 1) (vModelRegEx.batchS 0) true).1,
            vModelRegEx.batchS 0,
            (vModelRegEx.vFunction 0 0 (key 0 1) (vModelRegEx.batchS 0) true).2⟩) := by
  constructor
  · exact (v_loss_regularizer_subtract_assert ℕ ℕ ℕ ℕ ℕ ℕ 1 vModelRegBadEx
      regMismatchEx rfl 0 vTPEx 0 vTSEx 0 0).2.1 (by decide)
  · exact (v_loss_regularizer_subtract_assert ℕ ℕ ℕ ℕ ℕ ℕ 1 vModelRegEx
      regMatchEx rfl 0 vTPEx 0 vTSEx 0 0).1 rfl

/-- C10: the V-learner evaluates its diagnostic target-network prediction
`V_targ` with the target parameters but with the ONLINE function state, not
the aggregated target function state; replacing this by the target-state
convention (the one the Q-learner uses) changes nothing except possibly the
`bias_targ` / `rmse_targ` metrics — the gradients, the new function state,
the remaining metrics and the gradient diagnostics are identical — and the
two conventions genuinely differ on a concrete model; the Q-learner, whose
diagnostic uses the `q_targ` component of the target function state, gives a
result independent of the online function state whenever the differentiated
loss is. -/
theorem v_targ_diagnostic_state_asymmetry :
    (∀ (P St B O D H : Type) (n : ℕ) (GT : Type) (m : VModel P St B O D H n)
       (gradLoss : P → VTargetParams P H → St → VTargetState St → ℕ → B →
         Except Err (GT × VAux St O n))
       (gd : GT → List (String × ℝ)) (params : P) (tparams : VTargetParams P H)
       (state : St) (tstate : VTargetState St) (rng : ℕ) (tb : B),
       Except.map (fun x : GT × St × List (String × ℝ) =>
           (x.1, x.2.1, x.2.2.take 3, x.2.2.drop 5))
         (m.grads_and_metrics_func gradLoss gd params tparams state tstate rng tb)
       = Except.map (fun x : GT × St × List (String × ℝ) =>
           (x.1, x.2.1, x.2.2.take 3, x.2.2.drop 5))
         (m.grads_and_metrics_func_targState gradLoss gd params tparams state
           tstate rng tb))
    ∧ vModelStEx.grads_and_metrics_func gradLossStEx (fun _ => []) 0 vTPEx 0
        vTSStEx 0 0
      ≠ vModelStEx.grads_and_metrics_func_targState gradLossStEx (fun _ => []) 0
        vTPEx 0 vTSStEx 0 0
    ∧ (∀ (P St B O Act D H : Type) (n : ℕ) (GT : Type)
       (m : QModel P St B O Act D H n)
       (gradLoss : P → QTargetParams P H → St → QTargetState St → ℕ → B →
         Except Err (GT × QAux St O Act n))
       (gd : GT → List (String × ℝ)) (params : P) (tparams : QTargetParams P H)
       (state1 state2 : St) (tstate : QTargetState St) (rng : ℕ) (tb : B),
       gradLoss params tparams state1 tstate (key rng 0) tb
         = gradLoss params tparams state2 tstate (key rng 0) tb →
       m.grads_and_metrics_func gradLoss gd params tparams state1 tstate rng tb
         = m.grads_and_metrics_func gradLoss gd params tparams state2 tstate
             rng tb) := by
  refine ⟨?_, ?_, ?_⟩
  · intro P St B O D H n GT m gradLoss gd params tparams state tstate rng tb
    cases hgl : gradLoss params tparams state tstate (key rng 0) tb with
    | error e =>
        simp only [VModel.grads_and_metrics_func,
          VModel.grads_and_metrics_func_targState, hgl]
        rfl
    | ok ga =>
        simp only [VModel.grads_and_metrics_func,
          VModel.grads_and_metrics_func_targState, hgl]
        rfl
  · intro h
    have h2 : vmean (fun _ : Fin 1 => (0 : ℝ) - 0)
        = vmean (fun _ : Fin 1 => (1 : ℝ) - 0) := by
      have h3 := congrArg (fun x : Except Err (ℕ × ℝ × List (String × ℝ)) =>
        match x with
        | .ok y => (y.2.2.getD 3 ("", 0)).2
        | .error _ => 0) h
      exact h3
    simp [vmean, Fin.sum_univ_one] at h2
  · intro P St B O Act D H n GT m gradLoss gd params tparams state1 state2
      tstate rng tb h
    simp only [QModel.grads_and_metrics_func, h]

/-- Witness for C10: the Q-variant result is unchanged when the online
function state changes from `0` to `1`, the differentiated loss being
constant. -/
theorem v_targ_diagnostic_state_asymmetry_witness :
    qModelStEx.grads_and_metrics_func gradLossQStEx (fun _ => []) 0 qTPEx 0
      qTSStEx 0 0
    = qModelStEx.grads_and_metrics_func gradLossQStEx (fun _ => []) 0 qTPEx 1
      qTSStEx 0 0 :=
  v_targ_diagnostic_state_asymmetry.2.2 ℕ ℝ ℕ ℕ ℕ ℕ ℕ 1 ℕ qModelStEx
    gradLossQStEx (fun _ => []) 0 qTPEx 0 1 qTSStEx 0 0 rfl

/-- C1: for every transition batch, if the gradient tree computed by
`grads_and_metrics` contains a NaN in any leaf, `update` raises a
`RuntimeError` and leaves the online parameters, the online function state
and the optimizer state (indeed the whole engine state) identical to their
pre-call values; otherwise `update` applies the gradients — installing the
new function state and the optimizer-produced state and parameters — and
returns the metrics mapping. -/
theorem update_nan_guard :
    ∀ (B : Type) (e : Engine B) (tb : B),
      ((e.grads_and_metrics tb).1.hasNaN = true →
        e.update tb = (e, .error (.runtimeError (e.grads_and_metrics tb).1)))
      ∧ ((e.grads_and_metrics tb).1.hasNaN = false →
        e.update tb
          = ({ e with
                functionState := (e.grads_and_metrics tb).2.1,
                optimizerState := (e.applyGradsFunc e.optimizer e.optimizerState
                  e.params (e.grads_and_metrics tb).1).1,
                params := (e.applyGradsFunc e.optimizer e.optimizerState
                  e.params (e.grads_and_metrics tb).1).2 },
             .ok (e.grads_and_metrics tb).2.2)) := by
  intro B e tb
  constructor
  · intro h
    simp [Engine.update, h]
  · intro h
    simp [Engine.update, h, Engine.update_from_grads]

/-- Witness for C1: on a concrete engine producing a NaN gradient, `update`
raises and preserves the engine; on a concrete engine producing a finite
gradient, `update` installs the new parameters and returns the metrics. -/
theorem update_nan_guard_witness :
    engineNaNEx.update () = (engineNaNEx, .error (.runtimeError (.leaf [.nan])))
    ∧ engineOkEx.update ()
      = ({ engineOkEx with
            functionState := .nil,
            optimizerState := .leaf [.fin 0],
            params := .leaf [.fin 1] },
         .ok [("loss", .fin 1)]) := by
  constructor
  · exact (update_nan_guard Unit engineNaNEx ()).1 rfl
  · exact (update_nan_guard Unit engineOkEx ()).2 rfl

/-- Counterexample to C4: an infinite (non-NaN) gradient leaf is NOT
detected by `update` — the gradient tree is non-finite, yet the call
succeeds and mutates the parameters (the claim requires a runtime error and
no state mutation for every non-finite gradient tree). -/
theorem update_inf_grads_not_aborted :
    (engineInfEx.grads_and_metrics ()).1.hasNonFinite = true
    ∧ (engineInfEx.grads_and_metrics ()).1.hasNaN = false
    ∧ (engineInfEx.update ()).2 = .ok []
    ∧ engineInfEx.params = .leaf [.fin 0]
    ∧ (engineInfEx.update ()).1.params = .leaf [.inf] := by
  exact ⟨rfl, rfl, rfl, rfl, rfl⟩

/-- C4 (amended): for every transition batch for which the computed gradient
tree contains a NaN in any leaf, `update` aborts with a runtime error that
carries the offending gradient tree, with no state mutation; non-finite but
non-NaN (infinite) gradient values are not detected and the update
proceeds. -/
theorem update_nan_aborts_carrying_grads :
    ∀ (B : Type) (e : Engine B) (tb : B),
      (e.grads_and_metrics tb).1.hasNaN = true →
      e.update tb = (e, .error (.runtimeError (e.grads_and_metrics tb).1)) := by
  intro B e tb h
  simp [Engine.update, h]

/-- Witness for C4 (amended): the NaN-gradient engine aborts with the
gradient tree in the error. -/
theorem update_nan_aborts_carrying_grads_witness :
    engineNaNEx.update ()
      = (engineNaNEx, .error (.runtimeError (.leaf [.nan]))) :=
  update_nan_aborts_carrying_grads Unit engineNaNEx () rfl

/-- C5: assigning a new optimizer whose initialized state (from the current
online parameters) has a tree structure different from the current optimizer
state raises an `AttributeError` and leaves both the optimizer and the
optimizer state unchanged (the engine is returned untouched); when the
structures are identical the assignment succeeds and replaces only the
optimizer. -/
theorem optimizer_setter_structure_guard :
    ∀ (B : Type) (e : Engine B) (newOpt : Optimizer),
      ((newOpt.init e.params).struct ≠ e.optimizerState.struct →
        e.setOptimizer newOpt
          = (e, .error (.attributeError
              "cannot set optimizer attr: mismatch in optimizer_state structure")))
      ∧ ((newOpt.init e.params).struct = e.optimizerState.struct →
        e.setOptimizer newOpt = ({ e with optimizer := newOpt }, .ok ())) := by
  intro B e newOpt
  constructor
  · intro h
    simp [Engine.setOptimizer, h]
  · intro h
    simp [Engine.setOptimizer, h]

/-- Witness for C5: a structurally incompatible optimizer is rejected and a
structurally compatible one is installed. -/
theorem optimizer_setter_structure_guard_witness :
    engineOkEx.setOptimizer emptyStateOpt
      = (engineOkEx, .error (.attributeError
          "cannot set optimizer attr: mismatch in optimizer_state structure"))
    ∧ engineOkEx.setOptimizer paramUsingOpt
      = ({ engineOkEx with optimizer := paramUsingOpt }, .ok ()) := by
  constructor
  · exact (optimizer_setter_structure_guard Unit engineOkEx emptyStateOpt).1
      (by decide)
  · exact (optimizer_setter_structure_guard Unit engineOkEx paramUsingOpt).2
      (by decide)

/-- C7: `grads_and_metrics` is pure and deterministic — its result is a
function of the online parameters, target parameters, online function state,
target function state, rng and batch alone (in particular it does not depend
on the optimizer or its state), two calls on identical inputs return
identical gradients, function state and metrics, and by its type it returns
no new engine state: only `update` and `update_from_grads` produce a mutated
engine. -/
theorem grads_and_metrics_pure :
    ∀ (B : Type) (e1 e2 : Engine B) (tb : B),
      e1.params = e2.params →
      e1.targetParams = e2.targetParams →
      e1.functionState = e2.functionState →
      e1.targetFunctionState = e2.targetFunctionState →
      e1.rng = e2.rng →
      e1.gmFunc = e2.gmFunc →
      e1.grads_and_metrics tb = e2.grads_and_metrics tb := by
  intro B e1 e2 tb h1 h2 h3 h4 h5 h6
  simp [Engine.grads_and_metrics, h1, h2, h3, h4, h5, h6]

/-- Witness for C7: two engines differing only in optimizer and optimizer
state produce identical gradients, function state and metrics. -/
theorem grads_and_metrics_pure_witness :
    engineOkEx.grads_and_metrics () = engineOkEx2.grads_and_metrics () :=
  grads_and_metrics_pure Unit engineOkEx engineOkEx2 () rfl rfl rfl rfl rfl rfl

/-- Counterexample to C3: for an optimizer whose update genuinely uses the
optional params argument, the Q-variant apply-grads closure (which omits the
parameters) produces a different result from the V-variant (base-class)
closure at a concrete optimizer state, parameter tree and gradient tree. -/
theorem apply_grads_closures_differ_counterexample :
    apply_grads_func paramUsingOpt PyTree.nil (.leaf [.fin 1]) (.leaf [.fin 0])
    ≠ apply_grads_func_q paramUsingOpt PyTree.nil (.leaf [.fin 1])
        (.leaf [.fin 0]) := by
  decide

/-- C3 (amended): the Q-variant closure produces the same new optimizer
state and new parameters as the V-variant closure exactly for optimizers
whose update ignores the optional params argument (as the default adaptive
optimizer does); for a params-dependent optimizer the two closures may
differ. -/
theorem apply_grads_closures_agree_of_params_ignored :
    ∀ (opt : Optimizer),
      (∀ g s p, opt.update g s p = opt.update g s none) →
      ∀ (s params grads : PyTree),
        apply_grads_func opt s params grads
          = apply_grads_func_q opt s params grads := by
  intro opt h s params grads
  unfold apply_grads_func apply_grads_func_q
  rw [h grads s (some params)]

/-- Witness for C3 (amended): the two closures agree on the params-ignoring
optimizer. -/
theorem apply_grads_closures_agree_witness :
    apply_grads_func sgdLikeOpt PyTree.nil (.leaf [.fin 1]) (.leaf [.fin 0])
    = apply_grads_func_q sgdLikeOpt PyTree.nil (.leaf [.fin 1])
        (.leaf [.fin 0]) :=
  apply_grads_closures_agree_of_params_ignored sgdLikeOpt (fun _ _ _ => rfl)
    PyTree.nil (.leaf [.fin 1]) (.leaf [.fin 0])

/-- C8: constructing a V-learner with a `v` that is not a V-type function
approximator fails with a type error, and the outcome is the same for every
optimizer argument — in particular no optimizer state is created, since the
error is returned before the base constructor runs `optimizer.init`;
likewise a provided `v_targ` that is neither V-typed nor `None` fails with a
type error, again independently of the optimizer argument. -/
theorem mkV_type_check :
    ∀ (v : PyObj) (vTarg : Option PyObj) (opt : Option Optimizer)
      (reg : Option PyObj),
      (v.kind ≠ .vK →
        mkVLearner v vTarg opt reg = .error (.typeError "v must be a coax.V")
        ∧ ∀ opt2, mkVLearner v vTarg opt reg = mkVLearner v vTarg opt2 reg)
      ∧ (v.kind = .vK → ∀ t, vTarg = some t → t.kind ≠ .vK →
        mkVLearner v vTarg opt reg
          = .error (.typeError "v_targ must be a coax.Q or None")
        ∧ ∀ opt2, mkVLearner v vTarg opt reg = mkVLearner v vTarg opt2 reg) := by
  intro v vTarg opt reg
  constructor
  · intro h
    constructor
    · simp [mkVLearner, h]
    · intro opt2
      simp [mkVLearner, h]
  · intro hv t ht hk
    subst ht
    constructor
    · simp [mkVLearner, hv, hk]
    · intro opt2
      simp [mkVLearner, hv, hk]

/-- Witness for C8: a policy object in place of `v` is rejected (with any
optimizer), and a Q object in place of `v_targ` is rejected. -/
theorem mkV_type_check_witness :
    mkVLearner piObjEx none none none
      = .error (.typeError "v must be a coax.V")
    ∧ mkVLearner piObjEx none none none
      = mkVLearner piObjEx none (some sgdLikeOpt) none
    ∧ mkVLearner vObjEx (some qObjEx) none none
      = .error (.typeError "v_targ must be a coax.Q or None") := by
  refine ⟨?_, ?_, ?_⟩
  · exact ((mkV_type_check piObjEx none none none).1 (by decide)).1
  · exact ((mkV_type_check piObjEx none none none).1 (by decide)).2
      (some sgdLikeOpt)
  · exact ((mkV_type_check vObjEx (some qObjEx) none none).2 rfl qObjEx rfl
      (by decide)).1

/-- Counterexample to C9: a `q_targ` collection containing a non-Q-typed
element (here a `coax.V` object) is NOT rejected — construction succeeds
instead of failing with a type error. -/
theorem mkQ_collection_element_not_checked :
    vObjEx.kind ≠ PyKind.qK
    ∧ isOkOut (mkQLearner qObjEx (some (.coll [vObjEx])) none none) = true
    ∧ isTypeErrorOut (mkQLearner qObjEx (some (.coll [vObjEx])) none none)
      = false := by
  exact ⟨by decide, rfl, rfl⟩

/-- C9 (amended): constructing a Q-learner (without a policy regularizer)
fails with a type error exactly when `q` is not Q-typed or `q_targ` is a
single object that is not Q-typed; `q_targ` being `None` or any list / tuple
is accepted, the elements of a collection not being inspected. -/
theorem mkQ_type_check_amended :
    ∀ (q : PyObj) (qTarg : Option FTargArg) (opt : Option Optimizer),
      isTypeErrorOut (mkQLearner q qTarg opt none)
        = (decide (q.kind ≠ .qK) ||
           (match qTarg with
            | some (.single o) => decide (o.kind ≠ .qK)
            | _ => false)) := by
  intro q qTarg opt
  by_cases hq : q.kind = .qK
  · match qTarg with
    | none => simp [mkQLearner, baseInit, hq, isTypeErrorOut]
    | some (.single o) =>
        by_cases ho : o.kind = .qK
        · simp [mkQLearner, baseInit, hq, ho, isTypeErrorOut]
        · simp [mkQLearner, hq, ho, isTypeErrorOut]
    | some (.coll xs) => simp [mkQLearner, baseInit, hq, isTypeErrorOut]
  · simp [mkQLearner, hq, isTypeErrorOut]
